import Mathlib

/-!
Verification development for the multi-process chat request router
(load balancer `server/simple-balancer.js`, worker `server/worker.js`,
supervisor `server/process-manager.js` / `server/start.js` /
`start-cluster.js`, session utilities `server/utils/shared.js`, and the
conversation-history bridge `server/openwebui-bridge.js`).

Each section embeds the relevant JavaScript state and control flow as
plain Lean definitions (machine state passed explicitly, event handlers
as step functions) and proves or refutes the frozen claims about them.
-/

namespace RouterProof

/-! ## Load balancer (`server/simple-balancer.js`)

The balancer keeps a cursor `current` over a fixed list of `W` worker
URLs.  The request handler reads `workers[current]`, advances
`current = (current + 1) % workers.length`, and proxies; the error
callback of `proxy.web` never touches the cursor.  The `proxyRes`
handler sets the `X-Worker-Hit` response header to the value of
`current` at the time the proxied response arrives. -/

/-- One balancer request (source lines 18-38): the selected worker index
and the advanced cursor.  The `proxySucceeds` flag mirrors whether the
proxied request succeeds; the source error callback does not touch the
cursor, so the flag is unused. -/
def balancerHandle (W c : Nat) (proxySucceeds : Bool) : Nat × Nat :=
  (c % W, (c + 1) % W)

/-- The sequence of worker indices selected for a run of consecutive
requests with the given success/failure outcomes, obtained by iterating
`balancerHandle` from cursor `c`. -/
def balancerRun (W c : Nat) : List Bool → List Nat
  | [] => []
  | ok :: rest =>
    (balancerHandle W c ok).1 :: balancerRun W (balancerHandle W c ok).2 rest

/-- Value of the `X-Worker-Hit` header in a serialized run: the
`proxyRes` handler (source lines 58-62) reads the module cursor, which
the request handler already advanced before proxying, so the header
holds the advanced cursor, not the selected index. -/
def workerHitHeader (W c : Nat) : Nat :=
  (balancerHandle W c true).2

/-- The worker index that actually served the request. -/
def selectedWorker (W c : Nat) : Nat :=
  (balancerHandle W c true).1

lemma balancerRun_eq_map (W : Nat) :
    ∀ (outcomes : List Bool) (c : Nat),
      balancerRun W c outcomes =
        (List.range outcomes.length).map (fun i => (c + i) % W) := by
  intro outcomes
  induction outcomes with
  | nil => intro c; rfl
  | cons ok rest ih =>
    intro c
    simp only [balancerRun, balancerHandle, List.length_cons,
      List.range_succ_eq_map, List.map_cons, List.map_map]
    refine List.cons_eq_cons.mpr ⟨by simp, ?_⟩
    rw [ih]
    apply List.map_congr_left
    intro i _
    simp only [Function.comp_apply]
    rw [Nat.mod_add_mod]
    congr 1
    omega

/-- Counting lemma: among `i < N`, exactly
`N / W + (if d < N % W then 1 else 0)` indices satisfy `i % W = d`. -/
lemma countP_range_mod (W : Nat) (hW : 0 < W) :
    ∀ (N d : Nat), d < W →
      (List.range N).countP (fun i => decide (i % W = d)) =
        N / W + (if d < N % W then 1 else 0) := by
  intro N
  induction N with
  | zero => intro d _; simp
  | succ N ih =>
    intro d hd
    rw [List.range_succ, List.countP_append, ih d hd]
    have hmod : N % W < W := Nat.mod_lt _ hW
    have hdm : W * (N / W) + N % W = N := Nat.div_add_mod N W
    rcases Nat.lt_or_ge (N % W + 1) W with hlt | hge
    · -- no wrap: (N+1) % W = N % W + 1, (N+1) / W = N / W
      have hdiv : (N + 1) / W = N / W := by
        have hrepr : N + 1 = W * (N / W) + (N % W + 1) := by omega
        rw [hrepr, Nat.mul_add_div hW]
        have : (N % W + 1) / W = 0 := Nat.div_eq_of_lt hlt
        omega
      have hmod2 : (N + 1) % W = N % W + 1 := by
        have hrepr : N + 1 = W * (N / W) + (N % W + 1) := by omega
        rw [hrepr, Nat.mul_add_mod]
        exact Nat.mod_eq_of_lt hlt
      rw [hdiv, hmod2]
      simp only [List.countP_cons, List.countP_nil]
      by_cases h : N % W = d <;> split_ifs <;> simp_all <;> omega
    · -- wrap: N % W = W - 1, (N+1) % W = 0, (N+1) / W = N / W + 1
      have hw1 : N % W + 1 = W := by omega
      have hrepr : N + 1 = W * (N / W) + W := by omega
      have hdiv : (N + 1) / W = N / W + 1 := by
        have : W * (N / W) + W = W * (N / W + 1) := by ring
        rw [hrepr, this, Nat.mul_div_cancel_left _ hW]
      have hmod2 : (N + 1) % W = 0 := by
        have : W * (N / W) + W = W * (N / W + 1) := by ring
        rw [hrepr, this, Nat.mul_mod_right]
      rw [hdiv, hmod2]
      simp only [List.countP_cons, List.countP_nil]
      by_cases h : N % W = d <;> split_ifs <;> simp_all <;> omega

/-- Selection as residue: `(c + i) % W = w` exactly when
`i % W = (w + W - c % W) % W`. -/
lemma select_eq_iff_residue (W c w : Nat) (hW : 0 < W) (hw : w < W) (i : Nat) :
    (c + i) % W = w ↔ i % W = (w + W - c % W) % W := by
  have ha : c % W < W := Nat.mod_lt _ hW
  constructor
  · intro h
    have h1 : (c % W + i % W) % W = w := by rw [← Nat.add_mod]; exact h
    have h2 : ((c % W + i % W) + (W - c % W)) % W = (w + (W - c % W)) % W := by
      calc ((c % W + i % W) + (W - c % W)) % W
          = ((c % W + i % W) % W + (W - c % W) % W) % W := Nat.add_mod _ _ _
        _ = (w + (W - c % W) % W) % W := by rw [h1]
        _ = (w % W + (W - c % W) % W) % W := by rw [Nat.mod_eq_of_lt hw]
        _ = (w + (W - c % W)) % W := (Nat.add_mod _ _ _).symm
    have h3 : (c % W + i % W) + (W - c % W) = i % W + W := by omega
    rw [h3, Nat.add_mod_right] at h2
    have h4 : i % W % W = i % W := Nat.mod_eq_of_lt (Nat.mod_lt i hW)
    have h5 : w + (W - c % W) = w + W - c % W := by omega
    rw [h4, h5] at h2
    exact h2
  · intro h
    have h1 : (c + i) % W = (c % W + i % W) % W := Nat.add_mod _ _ _
    have e0 : c % W % W = c % W := Nat.mod_eq_of_lt ha
    have h2 : (c % W + (w + W - c % W) % W) % W = (c % W + (w + W - c % W)) % W := by
      conv_rhs => rw [Nat.add_mod, e0]
    rw [h1, h, h2]
    have h3 : c % W + (w + W - c % W) = w + W := by omega
    rw [h3, Nat.add_mod_right]
    exact Nat.mod_eq_of_lt hw

/-- Adding a full extra block before dividing computes the ceiling:
`(N + W - 1) / W = N / W + 1` whenever `W` does not divide `N`. -/
lemma ceil_div_of_mod_pos (N W : Nat) (hW : 0 < W) (h : 0 < N % W) :
    (N + W - 1) / W = N / W + 1 := by
  have hdm : W * (N / W) + N % W = N := Nat.div_add_mod N W
  have hmod : N % W < W := Nat.mod_lt _ hW
  have hmul : W * (N / W + 1) = W * (N / W) + W := by ring
  have hrepr : N + W - 1 = W * (N / W + 1) + (N % W - 1) := by
    rw [hmul]; omega
  rw [hrepr, Nat.mul_add_div hW]
  have hz : (N % W - 1) / W = 0 := Nat.div_eq_of_lt (by omega)
  omega

/-- C3: over any sequence of consecutive accepted requests, the balancer
cursor advances by exactly one modulo `W` per request, unchanged by the
proxied request succeeding or failing, and every worker `w < W` is
selected either `⌊N/W⌋` or `⌈N/W⌉` times among `N` consecutive
requests. -/
theorem C3_round_robin_fairness (W c0 w : Nat) (outcomes : List Bool)
    (hW : 0 < W) (hw : w < W) :
    (∀ c ok, (balancerHandle W c ok).2 = (c + 1) % W) ∧
    (∀ c, balancerHandle W c true = balancerHandle W c false) ∧
    ((balancerRun W c0 outcomes).count w = outcomes.length / W ∨
      (balancerRun W c0 outcomes).count w = (outcomes.length + W - 1) / W) := by
  refine ⟨fun c ok => rfl, fun c => rfl, ?_⟩
  set N := outcomes.length with hN
  set d := (w + W - c0 % W) % W with hd
  have hdW : d < W := Nat.mod_lt _ hW
  have hcount : (balancerRun W c0 outcomes).count w =
      (List.range N).countP (fun i => decide (i % W = d)) := by
    rw [balancerRun_eq_map, List.count_eq_countP, List.countP_map]
    apply List.countP_congr
    intro i _
    simp only [Function.comp_apply, beq_iff_eq, decide_eq_true_eq]
    exact select_eq_iff_residue W c0 w hW hw i
  rw [hcount, countP_range_mod W hW N d hdW]
  by_cases hlt : d < N % W
  · right
    rw [if_pos hlt, ceil_div_of_mod_pos N W hW (by omega)]
  · left
    rw [if_neg hlt]
    omega

/-- C3 witness: five requests over four workers starting at cursor 0
give worker 1 either 5/4 = 1 or 2 hits. -/
theorem C3_round_robin_fairness_witness :
    (balancerRun 4 0 [true, false, true, true, true]).count 1 =
      [true, false, true, true, true].length / 4 ∨
    (balancerRun 4 0 [true, false, true, true, true]).count 1 =
      ([true, false, true, true, true].length + 4 - 1) / 4 :=
  (C3_round_robin_fairness 4 0 1 [true, false, true, true, true]
    (by decide) (by decide)).2.2

/-- C9 counterexample: for the first request (cursor 0, pool of 4) the
`proxyRes` handler stamps `X-Worker-Hit` with the already advanced
cursor value 1, while worker 0 served the request, so the header does
not identify the serving worker. -/
theorem C9_counterexample :
    ¬ workerHitHeader 4 0 = selectedWorker 4 0 := by decide

/-- C9 (amended): the balancer stamps every proxied response with an
`X-Worker-Hit` header, but its value is the advanced cursor at response
time — in a serialized run, the index of the NEXT worker to be
selected, `(selected + 1) % W` — not the worker that served the
request. -/
theorem C9_header_is_advanced_cursor (W c : Nat) (hc : c < W) :
    workerHitHeader W c = (selectedWorker W c + 1) % W := by
  unfold workerHitHeader selectedWorker balancerHandle
  rw [Nat.mod_eq_of_lt hc]

/-- C9 witness: with four workers and cursor 2, the header reads 3. -/
theorem C9_header_is_advanced_cursor_witness :
    workerHitHeader 4 2 = (selectedWorker 4 2 + 1) % 4 :=
  C9_header_is_advanced_cursor 4 2 (by decide)

/-! ## Worker chat stream (`server/worker.js`, `POST /api/chat/stream`)

The handler keeps three mutable flags — `isClientConnected`,
`axiosResponse` (the upstream stream handle, once obtained) and
`timeoutId` — plus the implicit Express response state (`headersSent`,
whether `res.end()` ran).  The event handlers are: the `req` close
listener (lines 512-526), the 120-second timeout callback (766-790),
and the upstream data/end/error listeners (836-933).  We embed that
state and each handler as a step function on it; `emitted` accumulates
the SSE events written to the client. -/

/-- A normalized SSE event written to the client. -/
inductive SSEEvent
  | modelInfo
  | chunk (content : String)
  | error (msg : String)
  | done
deriving DecidableEq

/-- Mutable state of one chat-stream request inside the worker. -/
structure StreamState where
  clientConnected : Bool
  headersSent : Bool
  upstreamStarted : Bool
  upstreamDestroyed : Bool
  timerActive : Bool
  resEnded : Bool
  emitted : List SSEEvent
deriving DecidableEq

/-- An asynchronous event delivered to the handler. -/
inductive StreamEv
  | clientClose
  | upstreamDelta (content : String)
  | upstreamDoneMark
  | upstreamEnd
  | upstreamError (msg : String)
  | timeoutFire
deriving DecidableEq

/-- One event-handler invocation, translated line by line from the
source: the close listener destroys the upstream handle when present
and clears the timer; the data listener destroys the upstream and
writes nothing when the client is gone, otherwise re-emits content
fragments (and `done` on the literal `[DONE]` marker); the end, error
and timeout handlers clear the timer and write their events only under
`isClientConnected && !res.headersSent`. -/
def streamStep (s : StreamState) : StreamEv → StreamState
  | .clientClose =>
      { s with clientConnected := false,
               upstreamDestroyed := s.upstreamDestroyed || s.upstreamStarted,
               timerActive := false }
  | .upstreamDelta c =>
      if s.clientConnected then
        { s with emitted := s.emitted ++ [.chunk c] }
      else
        { s with upstreamDestroyed := true }
  | .upstreamDoneMark =>
      if s.clientConnected then
        { s with emitted := s.emitted ++ [.done] }
      else
        { s with upstreamDestroyed := true }
  | .upstreamEnd =>
      let s1 := { s with timerActive := false }
      if s1.clientConnected && !s1.headersSent then
        { s1 with emitted := s1.emitted ++ [.done], resEnded := true }
      else s1
  | .upstreamError m =>
      let s1 := { s with timerActive := false }
      if s1.clientConnected && !s1.headersSent then
        { s1 with emitted := s1.emitted ++ [.error m, .done], resEnded := true }
      else s1
  | .timeoutFire =>
      let s1 :=
        if s.clientConnected && !s.headersSent then
          { s with emitted := s.emitted ++ [.error "请求超时", .done], resEnded := true }
        else s
      { s1 with upstreamDestroyed := s1.upstreamDestroyed || s1.upstreamStarted,
                timerActive := false }

/-- Process a sequence of asynchronous events. -/
def streamRun (s : StreamState) : List StreamEv → StreamState
  | [] => s
  | ev :: rest => streamRun (streamStep s ev) rest

/-- State when the handler starts: client connected, nothing sent. -/
def initialStreamState : StreamState :=
  { clientConnected := true, headersSent := false, upstreamStarted := false,
    upstreamDestroyed := false, timerActive := false, resEnded := false,
    emitted := [] }

/-- Synchronous prefix of the handler after validation (source lines
766-832): arm the 120-second timer, bail out if the client already
disconnected, write the `model_info` event — whose `res.write` flushes
the response headers — and issue the upstream streaming call.  Returns
`none` on the early bail-out. -/
def startStreaming (s : StreamState) : Option StreamState :=
  let s1 := { s with timerActive := true }
  if !s1.clientConnected then none
  else some { s1 with emitted := s1.emitted ++ [.modelInfo],
                      headersSent := true, upstreamStarted := true }

/-- The state in which every upstream data/end/error listener runs when
the request survived to the upstream call. -/
def streamingState : StreamState :=
  { clientConnected := true, headersSent := true, upstreamStarted := true,
    upstreamDestroyed := false, timerActive := true, resEnded := false,
    emitted := [.modelInfo] }

/-- Count of chunk events in an emission log. -/
def chunkCount (evs : List SSEEvent) : Nat :=
  evs.countP (fun e => match e with | .chunk _ => true | _ => false)

/-- Once the client-connected flag is down, no handler writes anything
further and the flag never comes back up. -/
lemma streamRun_disconnected (evs : List StreamEv) :
    ∀ (s : StreamState), s.clientConnected = false →
      (streamRun s evs).emitted = s.emitted ∧
      (streamRun s evs).clientConnected = false := by
  induction evs with
  | nil => intro s h; exact ⟨rfl, h⟩
  | cons ev rest ih =>
    intro s h
    have hstep : (streamStep s ev).emitted = s.emitted ∧
        (streamStep s ev).clientConnected = false := by
      cases ev <;> simp [streamStep, h]
    have := ih (streamStep s ev) hstep.2
    exact ⟨by rw [streamRun]; rw [this.1, hstep.1], by rw [streamRun]; exact this.2⟩

/-- C1: the code never delivers the in-stream error/done terminal pair.
`startStreaming` always leaves `headersSent = true` (the `model_info`
write flushed the headers), and in that state both the upstream error
listener and the timeout callback — guarded by
`isClientConnected && !res.headersSent` — write no `error` event, no
`done` event, and never call `res.end()`.  This contradicts the claim
that an upstream error or timeout produces an `error` event, a `done`
event and a closed response. -/
theorem C1_error_done_never_emitted :
    startStreaming initialStreamState = some streamingState ∧
    (streamStep streamingState (.upstreamError "socket hang up")).emitted
      = streamingState.emitted ∧
    (streamStep streamingState (.upstreamError "socket hang up")).resEnded = false ∧
    (streamStep streamingState .timeoutFire).emitted = streamingState.emitted ∧
    (streamStep streamingState .timeoutFire).resEnded = false := by
  refine ⟨rfl, ?_, ?_, ?_, ?_⟩ <;> decide

/-- C5: when the client disconnects, the close listener destroys the
outstanding upstream stream and clears the timeout timer at that very
step, and no chunk event is ever emitted afterwards, whatever upstream
events still arrive. -/
theorem C5_disconnect_cancels_upstream (s : StreamState) (evs : List StreamEv)
    (hup : s.upstreamStarted = true) :
    (streamStep s .clientClose).upstreamDestroyed = true ∧
    (streamStep s .clientClose).timerActive = false ∧
    chunkCount (streamRun (streamStep s .clientClose) evs).emitted =
      chunkCount (streamStep s .clientClose).emitted := by
  refine ⟨by simp [streamStep, hup], by simp [streamStep], ?_⟩
  have hdis : (streamStep s .clientClose).clientConnected = false := by
    simp [streamStep]
  rw [(streamRun_disconnected evs _ hdis).1]

/-- C5 witness: disconnect in mid-stream, then two more upstream
fragments arrive; the upstream is destroyed, the timer cleared, and no
further chunk is emitted. -/
theorem C5_disconnect_cancels_upstream_witness :
    (streamStep streamingState .clientClose).upstreamDestroyed = true ∧
    (streamStep streamingState .clientClose).timerActive = false ∧
    chunkCount (streamRun (streamStep streamingState .clientClose)
        [.upstreamDelta "你好", .upstreamDelta "！", .upstreamEnd]).emitted =
      chunkCount (streamStep streamingState .clientClose).emitted :=
  C5_disconnect_cancels_upstream streamingState
    [.upstreamDelta "你好", .upstreamDelta "！", .upstreamEnd] (by decide)

/-! ## Worker chat-stream validation (`server/worker.js` lines 528-830)

The handler reads `message` (falsy when absent or empty) and `files`
(default `[]`) from the body, builds the upstream message array —
system prompt first, then one user message whose content collects one
item per attached file plus the free text — and only then checks
`if (!message && (!files || files.length === 0))`, answering
`400 {error}` without ever reaching the SSE header block or the axios
call at line 819. -/

/-- Message role tag. -/
inductive Role
  | system
  | user
  | assistant
deriving DecidableEq

/-- A content item of the upstream user message (text or inlined
base64 image). -/
inductive WContent
  | text (s : String)
  | image (dataUrl : String)
deriving DecidableEq

/-- An upstream chat message as the worker builds it. -/
structure WMessage where
  role : Role
  content : List WContent
deriving DecidableEq

/-- A file reference in the request body. -/
structure FileRef where
  name : String
  type : String
  path : Option String
  url : Option String
deriving DecidableEq

/-- The user content for a request with attachments (source lines
561-732): one content item per file — image inlining, document
extraction and the fallbacks all push exactly one item, abstracted by
`resolve` — then the free text when non-empty, then the dead-code
fallback prompt for an empty collection. -/
def buildUserContent (resolve : FileRef → WContent) (message : String)
    (files : List FileRef) : List WContent :=
  let items := files.map resolve
  let items := if message = "" then items else items ++ [.text message]
  if items.isEmpty then [.text "请分析这些文件内容"] else items

/-- The full upstream message array: system prompt, then the user
message (with or without attachments). -/
def buildMessages (resolve : FileRef → WContent) (systemPrompt message : String)
    (files : List FileRef) : List WMessage :=
  if files.isEmpty then
    [⟨.system, [.text systemPrompt]⟩, ⟨.user, [.text message]⟩]
  else
    [⟨.system, [.text systemPrompt]⟩, ⟨.user, buildUserContent resolve message files⟩]

/-- Outcome of the pre-upstream part of the handler. -/
inductive ChatDispatch
  | clientError (status : Nat) (body : String)
  | upstream (messages : List WMessage)
deriving DecidableEq

/-- The handler decision (source lines 553-830): build the messages,
reject empty message-and-files with `400`, otherwise proceed to the
streaming upstream call carrying the built messages. -/
def chatStreamDispatch (resolve : FileRef → WContent) (systemPrompt message : String)
    (files : List FileRef) : ChatDispatch :=
  let messages := buildMessages resolve systemPrompt message files
  if message = "" ∧ files.isEmpty then
    .clientError 400 "消息内容不能为空"
  else
    .upstream messages

/-- Whether the outcome reaches the upstream axios call. -/
def upstreamAttempted : ChatDispatch → Bool
  | .clientError _ _ => false
  | .upstream _ => true

/-- C4: a chat-stream request with an empty message and an empty files
list is rejected with the 4xx status 400 and a JSON error body, and the
upstream call is never attempted, whatever the system prompt and
however file content would have resolved. -/
theorem C4_empty_input_rejected (resolve : FileRef → WContent) (systemPrompt : String) :
    chatStreamDispatch resolve systemPrompt "" [] = .clientError 400 "消息内容不能为空" ∧
    400 < 500 ∧ 400 ≥ 400 ∧
    upstreamAttempted (chatStreamDispatch resolve systemPrompt "" []) = false := by
  refine ⟨?_, by omega, by omega, ?_⟩ <;> simp [chatStreamDispatch, upstreamAttempted]

/-! ## Sessions (`server/utils/shared.js`) and the worker middleware
and idle sweep (`server/worker.js` lines 39-60 and 1273-1286)

`UserSession` records creation and last-activity timestamps and a file
list; `cleanupInactive` answers whether the session idled past the
timeout, deleting its files when so.  The worker session middleware
runs on every route: it bumps the request counter, resolves the user
id from the `x-user-id` header (generating one, and echoing the
generated one in the `X-User-ID` response header, when the header is
absent or empty — JavaScript falsiness), and lazily creates the
session.  The hourly sweep iterates `redisStore.getAllSessions()` — an
identifier never defined in `worker.js`, so the loop body throws and
the catch only logs — and even granting it the session list, it wraps
each entry in `new UserSession(id, workerId)`, whose constructor sets
`lastActivity = Date.now()`, before asking `cleanupInactive`. -/

/-- `UserSession` state (shared.js lines 7-16). -/
structure USession where
  id : String
  workerId : String
  createdAt : Nat
  lastActivity : Nat
  files : List String
deriving DecidableEq

/-- The `UserSession` constructor: both timestamps are the current
time and the file list starts empty. -/
def UserSessionNew (id workerId : String) (now : Nat) : USession :=
  { id := id, workerId := workerId, createdAt := now, lastActivity := now,
    files := [] }

/-- `cleanupInactive` (shared.js lines 37-44): idle strictly longer
than the timeout (default 3600000 ms). -/
def cleanupInactive (s : USession) (now timeout : Nat) : Bool :=
  decide (now - s.lastActivity > timeout)

/-- Result of one sweep tick over the session store. -/
structure SweepResult where
  store : List USession
  deletedFiles : List String
deriving DecidableEq

/-- One tick of the hourly cleanup interval (worker.js lines
1273-1286), granting the undefined `redisStore` the most charitable
reading as this worker session store: every stored entry is first
re-wrapped by the `UserSession` constructor, then tested with
`cleanupInactive`, and evicted — with its files unlinked — when the
test passes. -/
def sweepTick (store : List USession) (now timeout : Nat) : SweepResult :=
  { store := store.filter
      (fun sd => !cleanupInactive (UserSessionNew sd.id sd.workerId now) now timeout),
    deletedFiles := (store.filter
      (fun sd => cleanupInactive (UserSessionNew sd.id sd.workerId now) now timeout)).flatMap
      (fun sd => (UserSessionNew sd.id sd.workerId now).files) }

/-- A session idle for two hours with one uploaded file. -/
def idleSession : USession :=
  { id := "u1", workerId := "1", createdAt := 0, lastActivity := 0,
    files := ["1700000000000-abcd1234.pdf"] }

/-- C2: the idle sweep never evicts anything.  `idleSession` is two
hours idle at `now = 7200000` — its own `cleanupInactive` answers
`true` — yet the sweep tick keeps it in the store and deletes no file,
because the loop re-wraps each entry in the `UserSession` constructor,
which resets `lastActivity` to `now` (and in the source the loop body
cannot even run: it reads the undefined `redisStore`). -/
theorem C2_sweep_never_evicts :
    cleanupInactive idleSession 7200000 3600000 = true ∧
    (sweepTick [idleSession] 7200000 3600000).store = [idleSession] ∧
    (sweepTick [idleSession] 7200000 3600000).deletedFiles = [] := by
  refine ⟨?_, ?_, ?_⟩ <;> decide

/-- The in-flight worker counters (worker.js lines 27-31). -/
structure WorkerStats where
  requests : Nat
  activeConnections : Nat
  errors : Nat
deriving DecidableEq

/-- What the session middleware produces for one request. -/
structure MwOutcome where
  stats : WorkerStats
  userId : String
  responseUserId : Option String
  sessionCreated : Bool
  sessions : String → Option USession

/-- JavaScript falsiness of the `x-user-id` header value: absent or
the empty string. -/
def headerFalsy : Option String → Bool
  | none => true
  | some s => decide (s = "")

/-- The user id the middleware works with: the header value, or the
freshly generated UUID when the header is falsy. -/
def mwUserId (headerUserId : Option String) (freshUuid : String) : String :=
  if headerFalsy headerUserId then freshUuid else headerUserId.getD freshUuid

/-- The `X-User-ID` response header the middleware sets: only the
generated UUID, and only on a falsy request header. -/
def mwResponseUserId (headerUserId : Option String) (freshUuid : String) :
    Option String :=
  if headerFalsy headerUserId then some freshUuid else none

/-- The session middleware (worker.js lines 39-60), which Express runs
on every route: bump the counters, resolve the user id (generating a
fresh UUID and setting the `X-User-ID` response header when the header
is falsy), and create the session when the store has none. -/
def sessionMiddleware (stats : WorkerStats) (sessions : String → Option USession)
    (route : String) (headerUserId : Option String) (freshUuid workerId : String)
    (now : Nat) : MwOutcome :=
  { stats := { stats with requests := stats.requests + 1,
                          activeConnections := stats.activeConnections + 1 },
    userId := mwUserId headerUserId freshUuid,
    responseUserId := mwResponseUserId headerUserId freshUuid,
    sessionCreated := (sessions (mwUserId headerUserId freshUuid)).isNone,
    sessions := fun v =>
      if (sessions (mwUserId headerUserId freshUuid)).isNone ∧
          v = mwUserId headerUserId freshUuid then
        some (UserSessionNew (mwUserId headerUserId freshUuid) workerId now)
      else sessions v }

/-- C10 counterexample: a request to `/api/health` carrying the
`X-User-ID` header with an empty value — so the request did carry the
header — still gets a generated `X-User-ID` response header, refuting
that the response header is set only when the request carried none. -/
theorem C10_counterexample :
    (sessionMiddleware ⟨0, 0, 0⟩ (fun _ => none) "/api/health" (some "")
        "5f2b-uuid" "1" 0).responseUserId = some "5f2b-uuid" ∧
    (some "" : Option String) ≠ none := by
  constructor
  · rfl
  · simp

/-- C10 (amended): on every route the middleware increments the request
counter by exactly one, creates a session exactly when the store lacks
one for the resolved user id, sets a generated `X-User-ID` response
header exactly when the request header was absent OR empty, and never
echoes a client-supplied (non-empty) identifier: with such a header no
response header is set at all, and any set response header carries the
freshly generated UUID. -/
theorem C10_middleware_contract (stats : WorkerStats)
    (sessions : String → Option USession) (route : String)
    (headerUserId : Option String) (freshUuid workerId : String) (now : Nat) :
    (sessionMiddleware stats sessions route headerUserId freshUuid workerId
        now).stats.requests = stats.requests + 1 ∧
    (sessions (sessionMiddleware stats sessions route headerUserId freshUuid
        workerId now).userId = none →
      (sessionMiddleware stats sessions route headerUserId freshUuid workerId
          now).sessionCreated = true ∧
      (sessionMiddleware stats sessions route headerUserId freshUuid workerId
          now).sessions
        (sessionMiddleware stats sessions route headerUserId freshUuid workerId
          now).userId =
        some (UserSessionNew
          (sessionMiddleware stats sessions route headerUserId freshUuid workerId
            now).userId workerId now)) ∧
    (∀ s, headerUserId = some s → s ≠ "" →
      (sessionMiddleware stats sessions route headerUserId freshUuid workerId
          now).responseUserId = none) ∧
    ((sessionMiddleware stats sessions route headerUserId freshUuid workerId
        now).responseUserId = none ∨
      (sessionMiddleware stats sessions route headerUserId freshUuid workerId
        now).responseUserId = some freshUuid) ∧
    (headerFalsy headerUserId = true →
      (sessionMiddleware stats sessions route headerUserId freshUuid workerId
          now).responseUserId = some freshUuid) := by
  refine ⟨rfl, ?_, ?_, ?_, ?_⟩
  · intro hnone
    simp only [sessionMiddleware] at hnone ⊢
    simp [hnone]
  · intro s hsome hne
    subst hsome
    simp [sessionMiddleware, mwResponseUserId, headerFalsy, hne]
  · by_cases hg : headerFalsy headerUserId = true <;>
      simp [sessionMiddleware, mwResponseUserId, hg]
  · intro hg
    simp [sessionMiddleware, mwResponseUserId, hg]

/-- C10 witness: a request with no `X-User-ID` header on `/api/models`
and an empty store gets a created session and the generated id echoed. -/
theorem C10_middleware_contract_witness :
    (sessionMiddleware ⟨7, 1, 0⟩ (fun _ => none) "/api/models" none
        "ab12-uuid" "2" 5).sessionCreated = true ∧
    (sessionMiddleware ⟨7, 1, 0⟩ (fun _ => none) "/api/models" none
        "ab12-uuid" "2" 5).responseUserId = some "ab12-uuid" :=
  ⟨((C10_middleware_contract ⟨7, 1, 0⟩ (fun _ => none) "/api/models" none
      "ab12-uuid" "2" 5).2.1 rfl).1,
    (C10_middleware_contract ⟨7, 1, 0⟩ (fun _ => none) "/api/models" none
      "ab12-uuid" "2" 5).2.2.2.2 rfl⟩

/-! ## Process supervisor (`server/process-manager.js`)

`forkWorker(id)` spawns a worker on port `basePort + id - 1` and
stores `{ worker, pid, startedAt, restarts: 0 }` under the ordinal
`id`.  The cluster exit listener deletes the entry and calls
`forkWorker(id)` again.  `restartWorker(id)` captures the old entry,
signals shutdown, waits, calls `forkWorker(id)` and then overwrites
the fresh `restarts: 0` with `old.restarts + 1`. -/

/-- Supervisor bookkeeping for one worker process. -/
structure WorkerInfo where
  port : Nat
  startedAt : Nat
  restarts : Nat
deriving DecidableEq

/-- Supervisor state: base port and the ordinal-indexed worker map. -/
structure PMState where
  basePort : Nat
  workers : Nat → Option WorkerInfo

/-- `forkWorker` (source lines 59-79): port derived from the ordinal,
restart counter reset to zero. -/
def forkWorker (pm : PMState) (id now : Nat) : PMState :=
  { pm with workers := fun j =>
      if j = id then some ⟨pm.basePort + id - 1, now, 0⟩ else pm.workers j }

/-- The cluster exit listener (source lines 35-46): when the exited
pid maps to a known ordinal, delete its entry and re-fork under the
same ordinal. -/
def handleWorkerExit (pm : PMState) (id now : Nat) : PMState :=
  match pm.workers id with
  | none => pm
  | some _ =>
      forkWorker
        { pm with workers := fun j => if j = id then none else pm.workers j }
        id now

/-- `restartWorker` (source lines 100-124): graceful shutdown, re-fork
under the same ordinal, then bump the stored restart counter to the
captured old count plus one. -/
def restartWorker (pm : PMState) (id now : Nat) : PMState :=
  match pm.workers id with
  | none => pm
  | some info =>
      let pm2 := forkWorker pm id now
      { pm2 with workers := fun j =>
          if j = id then (pm2.workers id).map (fun w => { w with restarts := info.restarts + 1 })
          else pm2.workers j }

/-- A one-worker supervisor: ordinal 1 on port 3001, never restarted. -/
def pmExample : PMState :=
  { basePort := 3001,
    workers := fun j => if j = 1 then some ⟨3001, 0, 0⟩ else none }

/-- C6 counterexample: worker 1 of `pmExample` has restart counter 0;
after an unexpected exit the supervisor re-forks it, but `forkWorker`
stores a fresh `restarts: 0` and the exit path never adds one, so the
counter is 0, not the 1 the claim requires. -/
theorem C6_counterexample :
    ((handleWorkerExit pmExample 1 50).workers 1).map WorkerInfo.restarts = some 0 ∧
    some 0 ≠ ((pmExample.workers 1).map (fun w => w.restarts + 1)) := by
  constructor
  · rfl
  · simp [pmExample]

/-- C6 (amended): every replacement keeps the same ordinal and the same
deterministic port `basePort + id - 1`; the threshold-driven graceful
restart (`restartWorker`) increments the restart counter by exactly 1,
but the unexpected-exit re-fork resets it to 0. -/
theorem C6_replacement_identity (pm : PMState) (id now : Nat) (info : WorkerInfo)
    (h : pm.workers id = some info) (hport : info.port = pm.basePort + id - 1) :
    (restartWorker pm id now).workers id =
      some ⟨info.port, now, info.restarts + 1⟩ ∧
    (handleWorkerExit pm id now).workers id = some ⟨info.port, now, 0⟩ := by
  constructor
  · simp [restartWorker, h, forkWorker, hport]
  · simp [handleWorkerExit, h, forkWorker, hport]

/-- C6 witness: restarting worker 1 of `pmExample` on threshold breach
yields the same port 3001 and counter 1; an unexpected exit yields the
same port and counter 0. -/
theorem C6_replacement_identity_witness :
    (restartWorker pmExample 1 99).workers 1 = some ⟨3001, 99, 1⟩ ∧
    (handleWorkerExit pmExample 1 99).workers 1 = some ⟨3001, 99, 0⟩ :=
  C6_replacement_identity pmExample 1 99 ⟨3001, 0, 0⟩ rfl rfl

/-! ## Shutdown ordering (`server/start.js` lines 142-168 and
`start-cluster.js` lines 68-87)

`server/start.js` SIGTERMs the balancer immediately, the workers after
a 1000 ms delay, and exits itself 3000 ms after that.
`start-cluster.js` SIGTERMs all workers immediately and the balancer
only in a 5000 ms timeout, exiting in the same callback. -/

/-- A component the supervisor acts on during shutdown. -/
inductive ShutdownTarget
  | balancer
  | worker (i : Nat)
  | supervisorSelf
deriving DecidableEq

/-- The `server/start.js` shutdown schedule: milliseconds after signal
receipt at which each SIGTERM (or the final `process.exit`) happens. -/
def startJsShutdownSchedule (workerIds : List Nat) : List (Nat × ShutdownTarget) :=
  (0, ShutdownTarget.balancer) ::
    (workerIds.map (fun i => (1000, ShutdownTarget.worker i)) ++
      [(4000, ShutdownTarget.supervisorSelf)])

/-- The `start-cluster.js` shutdown schedule: workers first, balancer
and supervisor exit after a 5000 ms delay. -/
def startClusterShutdownSchedule (workerIds : List Nat) :
    List (Nat × ShutdownTarget) :=
  workerIds.map (fun i => (0, ShutdownTarget.worker i)) ++
    [(5000, ShutdownTarget.balancer), (5000, ShutdownTarget.supervisorSelf)]

/-- When a target is first acted on in a schedule. -/
def actTime (sched : List (Nat × ShutdownTarget)) (t : ShutdownTarget) :
    Option Nat :=
  (sched.find? (fun p => decide (p.2 = t))).map (fun p => p.1)

lemma actTime_worker_startJs (workerIds : List Nat) (i : Nat) (h : i ∈ workerIds) :
    actTime (startJsShutdownSchedule workerIds) (ShutdownTarget.worker i) =
      some 1000 := by
  unfold startJsShutdownSchedule actTime
  rw [List.find?_cons_of_neg _ (by simp)]
  induction workerIds with
  | nil => cases h
  | cons j rest ih =>
    rcases List.mem_cons.mp h with hj | hrest
    · subst hj
      simp
    · by_cases hji : ShutdownTarget.worker j = ShutdownTarget.worker i
      · simp [hji]
      · rw [List.map_cons, List.cons_append,
          List.find?_cons_of_neg _ (by simp [hji])]
        exact ih hrest

lemma actTime_self_startJs (workerIds : List Nat) :
    actTime (startJsShutdownSchedule workerIds) ShutdownTarget.supervisorSelf =
      some 4000 := by
  unfold startJsShutdownSchedule actTime
  rw [List.find?_cons_of_neg _ (by simp)]
  induction workerIds with
  | nil => rfl
  | cons j rest ih =>
    rw [List.map_cons, List.cons_append, List.find?_cons_of_neg _ (by simp)]
    exact ih

/-- C7 counterexample: the `start-cluster.js` supervisor, with the
default four workers, signals every worker at 0 ms and the balancer
only at 5000 ms — the balancer is signalled last, not first, so the
claim fails on this supervisor. -/
theorem C7_counterexample :
    actTime (startClusterShutdownSchedule [1, 2, 3, 4]) ShutdownTarget.balancer =
      some 5000 ∧
    actTime (startClusterShutdownSchedule [1, 2, 3, 4]) (ShutdownTarget.worker 1) =
      some 0 ∧
    ¬ (5000 : Nat) ≤ 0 := by
  refine ⟨?_, ?_, by omega⟩ <;> decide

/-- C7 (amended): the `server/start.js` supervisor signals the balancer
at 0 ms, every worker only at 1000 ms, and exits at the bounded 4000 ms
grace mark, so there the balancer stops strictly before any worker;
the `start-cluster.js` variant signals the workers first and the
balancer last. -/
theorem C7_startjs_balancer_first (workerIds : List Nat) (i : Nat)
    (h : i ∈ workerIds) :
    actTime (startJsShutdownSchedule workerIds) ShutdownTarget.balancer = some 0 ∧
    actTime (startJsShutdownSchedule workerIds) (ShutdownTarget.worker i) =
      some 1000 ∧
    actTime (startJsShutdownSchedule workerIds) ShutdownTarget.supervisorSelf =
      some 4000 ∧
    (0 : Nat) < 1000 ∧ (1000 : Nat) < 4000 :=
  ⟨rfl, actTime_worker_startJs workerIds i h, actTime_self_startJs workerIds,
    by omega, by omega⟩

/-- C7 witness: the standard four-worker pool. -/
theorem C7_startjs_balancer_first_witness :
    actTime (startJsShutdownSchedule [1, 2, 3, 4]) ShutdownTarget.balancer =
      some 0 ∧
    actTime (startJsShutdownSchedule [1, 2, 3, 4]) (ShutdownTarget.worker 2) =
      some 1000 ∧
    actTime (startJsShutdownSchedule [1, 2, 3, 4]) ShutdownTarget.supervisorSelf =
      some 4000 ∧
    (0 : Nat) < 1000 ∧ (1000 : Nat) < 4000 :=
  C7_startjs_balancer_first [1, 2, 3, 4] 2 (by decide)

/-! ## Conversation history (`server/openwebui-bridge.js`)

The bridge keeps `conversationStore : Map<userId, messages>`.
`getConversation` lazily seeds `[{role: system, content: prompt}]`;
`truncateConversation` keeps the first system entry and the last
`MAX_HISTORY_TURNS * 2` non-system entries; `pushUserMessage` and
`pushAssistantMessage` append one user / assistant entry in place (the
assistant entry only when the accumulated text is non-blank); the
stream end listener commits `truncateConversation` of the pushed
history back to the store; `POST /api/session/reset` stores the fresh
one-entry history. -/

/-- `MAX_HISTORY_TURNS` (bridge line 378, default). -/
def MAX_HISTORY_TURNS : Nat := 20

/-- `SYSTEM_PROMPT` default (bridge line 379). -/
def DEFAULT_SYSTEM_PROMPT : String := "你是一个专业、可靠、简洁的AI助手。"

/-- One conversation entry. -/
structure ChatMsg where
  role : Role
  content : String
deriving DecidableEq

/-- A file reference as the bridge sees it in the request body. -/
structure BridgeFile where
  name : Option String
  id : Option String
  url : Option String
deriving DecidableEq

/-- JavaScript `a || b` on an optional string: `b` when absent or
empty. -/
def jsOrStr (a : Option String) (b : String) : String :=
  match a with
  | none => b
  | some s => if s = "" then b else s

/-- The fresh history seeded on first contact and on reset. -/
def freshHistory : List ChatMsg :=
  [⟨Role.system, DEFAULT_SYSTEM_PROMPT⟩]

/-- `getConversation` (bridge lines 432-437): return the stored
history, seeding the store with `freshHistory` when absent. -/
def getConversation (store : String → Option (List ChatMsg)) (u : String) :
    List ChatMsg × (String → Option (List ChatMsg)) :=
  match store u with
  | some hist => (hist, store)
  | none => (freshHistory, fun v => if v = u then some freshHistory else store v)

/-- `truncateConversation` (bridge lines 439-444): the first system
entry (or a default one), followed by the last `MAX_HISTORY_TURNS * 2`
non-system entries. -/
def truncateConversation (h : List ChatMsg) : List ChatMsg :=
  ((h.find? (fun m => decide (m.role = Role.system))).getD
      ⟨Role.system, DEFAULT_SYSTEM_PROMPT⟩) ::
    ((h.filter (fun m => decide (m.role ≠ Role.system))).drop
      ((h.filter (fun m => decide (m.role ≠ Role.system))).length -
        MAX_HISTORY_TURNS * 2))

/-- The numbered attachment line of `pushUserMessage`. -/
def bridgeFileLine (idx : Nat) (f : BridgeFile) : String :=
  toString (idx + 1) ++ ". " ++ jsOrStr f.name (jsOrStr f.id "未命名附件") ++ " " ++
    (match f.url with
     | some u => if u = "" then "" else "(" ++ u ++ ")"
     | none => "")

/-- The final text of a pushed user turn (bridge lines 446-455). -/
def renderUserText (message : String) (files : List BridgeFile) : String :=
  let text :=
    if files.length = 0 then message
    else
      message ++ "\n\n[附件上下文]\n" ++
        String.intercalate "\n" (files.enum.map (fun p => bridgeFileLine p.1 p.2))
  if text.trim = "" then "请结合已上传文件进行分析。" else text.trim

/-- `pushUserMessage`: append one user entry. -/
def pushUserMessage (h : List ChatMsg) (message : String)
    (files : List BridgeFile) : List ChatMsg :=
  h ++ [⟨Role.user, renderUserText message files⟩]

/-- `pushAssistantMessage` (bridge lines 457-461): append one
assistant entry unless the accumulated text is blank. -/
def pushAssistantMessage (h : List ChatMsg) (text : String) : List ChatMsg :=
  if text.trim = "" then h else h ++ [⟨Role.assistant, text.trim⟩]

/-- The stream end listener commit (bridge lines 576-578). -/
def streamCompletionCommit (h : List ChatMsg) (assistantText : String) :
    List ChatMsg :=
  truncateConversation (pushAssistantMessage h assistantText)

/-- `POST /api/session/reset` (bridge lines 802-806). -/
def resetConversation (store : String → Option (List ChatMsg)) (u : String) :
    String → Option (List ChatMsg) :=
  fun v => if v = u then some freshHistory else store v

/-- The first entry is a system entry and no other entry is. -/
def singleSystemHead : List ChatMsg → Bool
  | [] => false
  | m :: rest =>
      decide (m.role = Role.system) &&
        rest.all (fun x => decide (x.role ≠ Role.system))

/-- No two adjacent system entries. -/
def noConsecSystem : List ChatMsg → Bool
  | [] => true
  | [_] => true
  | a :: b :: rest =>
      !(decide (a.role = Role.system) && decide (b.role = Role.system)) &&
        noConsecSystem (b :: rest)

/-- Number of non-system entries. -/
def nonSystemCount (h : List ChatMsg) : Nat :=
  (h.filter (fun m => decide (m.role ≠ Role.system))).length

/-- The configured turn bound: at most `MAX_HISTORY_TURNS * 2`
non-system entries. -/
def historyBound (h : List ChatMsg) : Bool :=
  decide (nonSystemCount h ≤ MAX_HISTORY_TURNS * 2)

lemma noConsec_of_allNonSystem :
    ∀ (l : List ChatMsg),
      l.all (fun x => decide (x.role ≠ Role.system)) = true →
      noConsecSystem l = true := by
  intro l
  induction l with
  | nil => intro _; rfl
  | cons a rest ih =>
    intro hall
    cases rest with
    | nil => rfl
    | cons b r2 =>
      simp only [List.all_cons, Bool.and_eq_true, decide_eq_true_eq] at hall
      simp only [noConsecSystem, Bool.and_eq_true, Bool.not_eq_true']
      constructor
      · simp [hall.1]
      · refine ih ?_
        simp only [List.all_cons, Bool.and_eq_true, decide_eq_true_eq]
        exact ⟨hall.2.1, hall.2.2⟩

lemma noConsec_of_singleHead (h : List ChatMsg)
    (hs : singleSystemHead h = true) : noConsecSystem h = true := by
  cases h with
  | nil => cases hs
  | cons m rest =>
    simp only [singleSystemHead, Bool.and_eq_true] at hs
    cases rest with
    | nil => rfl
    | cons b r2 =>
      have hall := hs.2
      simp only [List.all_cons, Bool.and_eq_true, decide_eq_true_eq] at hall
      simp only [noConsecSystem, Bool.and_eq_true, Bool.not_eq_true']
      constructor
      · simp [hall.1]
      · refine noConsec_of_allNonSystem _ ?_
        simp only [List.all_cons, Bool.and_eq_true, decide_eq_true_eq]
        exact ⟨hall.1, hall.2⟩

lemma singleHead_append_nonSystem (h : List ChatMsg) (m : ChatMsg)
    (hs : singleSystemHead h = true) (hm : m.role ≠ Role.system) :
    singleSystemHead (h ++ [m]) = true := by
  cases h with
  | nil => cases hs
  | cons a rest =>
    simp only [singleSystemHead, Bool.and_eq_true] at hs
    simp only [List.cons_append, singleSystemHead, Bool.and_eq_true,
      List.all_append, List.all_cons, List.all_nil, Bool.and_true]
    exact ⟨hs.1, hs.2, by simp [hm]⟩

lemma truncHead_system (h : List ChatMsg) :
    ((h.find? (fun m => decide (m.role = Role.system))).getD
      ⟨Role.system, DEFAULT_SYSTEM_PROMPT⟩).role = Role.system := by
  cases hf : h.find? (fun m => decide (m.role = Role.system)) with
  | none => rfl
  | some m =>
    have := List.find?_some hf
    simp only [decide_eq_true_eq] at this
    simpa using this

lemma singleHead_truncate (h : List ChatMsg) :
    singleSystemHead (truncateConversation h) = true := by
  unfold truncateConversation
  simp only [singleSystemHead, Bool.and_eq_true, decide_eq_true_eq]
  refine ⟨truncHead_system h, ?_⟩
  apply List.all_eq_true.mpr
  intro x hx
  have hx2 : x ∈ h.filter (fun m => decide (m.role ≠ Role.system)) :=
    List.mem_of_mem_drop hx
  exact (List.mem_filter.mp hx2).2

lemma bound_truncate (h : List ChatMsg) :
    historyBound (truncateConversation h) = true := by
  have hhead := truncHead_system h
  unfold historyBound truncateConversation nonSystemCount
  simp only [decide_eq_true_eq]
  rw [List.filter_cons_of_neg (by simp [hhead])]
  have hlen := List.length_filter_le
    (fun m => decide (m.role ≠ Role.system))
    ((h.filter (fun m => decide (m.role ≠ Role.system))).drop
      ((h.filter (fun m => decide (m.role ≠ Role.system))).length -
        MAX_HISTORY_TURNS * 2))
  rw [List.length_drop] at hlen
  omega

lemma nonSystemCount_push (h : List ChatMsg) (m : ChatMsg)
    (hm : m.role ≠ Role.system) :
    nonSystemCount (h ++ [m]) = nonSystemCount h + 1 := by
  unfold nonSystemCount
  rw [List.filter_append, List.length_append]
  simp [hm]

/-- C8 counterexample: a well-formed history already holding the
maximal `MAX_HISTORY_TURNS * 2 = 40` non-system entries — exactly what
the store holds after twenty completed turns — satisfies the bound,
but `pushUserMessage` (which the stream route runs before any
truncation) leaves 41 non-system entries, violating the bound the
claim says every history-touching operation preserves. -/
theorem C8_counterexample :
    singleSystemHead
      (⟨Role.system, DEFAULT_SYSTEM_PROMPT⟩ ::
        List.replicate (MAX_HISTORY_TURNS * 2) ⟨Role.user, "x"⟩) = true ∧
    historyBound
      (⟨Role.system, DEFAULT_SYSTEM_PROMPT⟩ ::
        List.replicate (MAX_HISTORY_TURNS * 2) ⟨Role.user, "x"⟩) = true ∧
    historyBound
      (pushUserMessage
        (⟨Role.system, DEFAULT_SYSTEM_PROMPT⟩ ::
          List.replicate (MAX_HISTORY_TURNS * 2) ⟨Role.user, "x"⟩)
        "继续" []) = false := by
  refine ⟨?_, ?_, ?_⟩ <;> decide

/-- C8 (amended): every history-touching operation — lazy creation,
appending a user turn, appending the assistant turn, truncation, the
stream-completion commit, reset — preserves the shape invariant that
the first entry is the single system entry (hence no two consecutive
system entries); creation, truncation, the stream-completion commit
and reset also guarantee at most `MAX_HISTORY_TURNS * 2` non-system
entries; but appending a user turn always grows the non-system count
by exactly one and can therefore exceed the bound until the
completion-time truncation runs. -/
theorem C8_history_invariants (store : String → Option (List ChatMsg))
    (u : String) (h : List ChatMsg) (message assistantText : String)
    (files : List BridgeFile)
    (hwf : singleSystemHead h = true)
    (hstore : ∀ v hist, store v = some hist → singleSystemHead hist = true) :
    singleSystemHead (getConversation store u).1 = true ∧
    (store u = none → (getConversation store u).1 = freshHistory) ∧
    singleSystemHead (pushUserMessage h message files) = true ∧
    noConsecSystem (pushUserMessage h message files) = true ∧
    singleSystemHead (pushAssistantMessage h assistantText) = true ∧
    noConsecSystem (pushAssistantMessage h assistantText) = true ∧
    singleSystemHead (truncateConversation h) = true ∧
    historyBound (truncateConversation h) = true ∧
    singleSystemHead (streamCompletionCommit h assistantText) = true ∧
    historyBound (streamCompletionCommit h assistantText) = true ∧
    singleSystemHead freshHistory = true ∧
    historyBound freshHistory = true ∧
    resetConversation store u u = some freshHistory ∧
    (∀ v, v ≠ u → resetConversation store u v = store v) ∧
    nonSystemCount (pushUserMessage h message files) = nonSystemCount h + 1 := by
  have hpushU : singleSystemHead (pushUserMessage h message files) = true :=
    singleHead_append_nonSystem h _ hwf (by simp)
  have hpushA : singleSystemHead (pushAssistantMessage h assistantText) = true := by
    unfold pushAssistantMessage
    split
    · exact hwf
    · exact singleHead_append_nonSystem h _ hwf (by simp)
  refine ⟨?_, ?_, hpushU, noConsec_of_singleHead _ hpushU, hpushA,
    noConsec_of_singleHead _ hpushA, singleHead_truncate h, bound_truncate h,
    singleHead_truncate _, bound_truncate _, by decide, by decide, ?_, ?_, ?_⟩
  · unfold getConversation
    cases hu : store u with
    | some hist => exact hstore u hist hu
    | none => rfl
  · intro hu
    unfold getConversation
    rw [hu]
  · unfold resetConversation
    rw [if_pos rfl]
  · intro v hv
    unfold resetConversation
    rw [if_neg hv]
  · exact nonSystemCount_push h _ (by simp)

/-- C8 witness: from an empty store and the fresh one-entry history,
pushing a user turn keeps the single-system-head shape, and truncation
enforces the bound. -/
theorem C8_history_invariants_witness :
    singleSystemHead (pushUserMessage freshHistory "你好" []) = true ∧
    historyBound (truncateConversation freshHistory) = true :=
  ⟨(C8_history_invariants (fun _ => none) "u1" freshHistory "你好" "好的" []
      (by decide) (fun _ _ hv => nomatch hv)).2.2.1,
    (C8_history_invariants (fun _ => none) "u1" freshHistory "你好" "好的" []
      (by decide) (fun _ _ hv => nomatch hv)).2.2.2.2.2.2.2.1⟩

end RouterProof
